import Mathlib

/-!
Verification of the Ouroboros subchain aggregation subsystem (Python source:
`ouro_py/ouro_medium/main.py` and `ouro_py/ouro_light/main.py`).

The embedding models parsed JSON records as association lists with Python-dict
lookup/update semantics, timestamps and reputation scores as rationals, and
the background loops (`monitor_heavy_nodes`, `advertise_to_heavy`,
`batch_flush`, `discover_aggregator`) as per-cycle step functions over an
explicit node state, parameterised by the outcome of the network call made in
that cycle.  `hashlib.sha256` is embedded as a full executable SHA-256 over
byte lists (FIPS 180-4), words as `Nat` reduced modulo 2^32.
-/

namespace Ouro

set_option maxRecDepth 8000

/-- A parsed JSON value, as produced by `request.json()`.  Numbers are modelled
as rationals (Python floats/ints on the values actually exercised). -/
inductive Val where
  | vStr : String → Val
  | vNum : Rat → Val
  | vBool : Bool → Val
  | vNull : Val
deriving DecidableEq

/-- A parsed JSON object (Python `dict`): an association list with unique-key
observable behaviour given by first-match lookup and replace-first update. -/
abbrev Dict := List (String × Val)

/-- Python `k in d`. -/
def dictHas (k : String) : Dict → Bool
  | [] => false
  | p :: rest => p.1 == k || dictHas k rest

/-- Python `d.get(k)` / `d[k]`: first binding of `k`. -/
def dictGet (k : String) : Dict → Option Val
  | [] => none
  | p :: rest => if p.1 == k then some p.2 else dictGet k rest

/-- Python `d[k] = v`: replace the first binding of `k`, or append a new one. -/
def dictSet (k : String) (v : Val) : Dict → Dict
  | [] => [(k, v)]
  | p :: rest => if p.1 == k then (k, v) :: rest else p :: dictSet k v rest

theorem dictGet_dictSet_ne (k k' : String) (v : Val) (d : Dict) (h : k ≠ k') :
    dictGet k (dictSet k' v d) = dictGet k d := by
  induction d with
  | nil => simp [dictGet, dictSet, Ne.symm h]
  | cons p rest ih =>
    by_cases hp : p.1 = k'
    · have hpk : p.1 ≠ k := fun hh => h (hh ▸ hp)
      simp [dictSet, hp, dictGet, Ne.symm h, hpk]
    · by_cases hk : p.1 = k
      · simp [dictSet, hp, dictGet, hk, h]
      · simp [dictSet, hp, dictGet, hk, ih]

theorem dictGet_dictSet_self (k : String) (v : Val) (d : Dict) :
    dictGet k (dictSet k v d) = some v := by
  induction d with
  | nil => simp [dictGet, dictSet]
  | cons p rest ih =>
    by_cases hp : p.1 = k
    · simp [dictSet, hp, dictGet]
    · simp [dictSet, hp, dictGet, ih]

-- ─── SHA-256 (FIPS 180-4), bytes as `Nat < 256`, words as `Nat` mod 2^32 ───

/-- Truncate to a 32-bit word. -/
def w32 (n : Nat) : Nat := n % 4294967296

/-- Rotate a 32-bit word right by `n` bits. -/
def rotr32 (n x : Nat) : Nat := w32 ((x >>> n) ||| (x <<< (32 - n)))

def ch32 (x y z : Nat) : Nat := (x &&& y) ^^^ ((x ^^^ 4294967295) &&& z)

def maj32 (x y z : Nat) : Nat := (x &&& y) ^^^ (x &&& z) ^^^ (y &&& z)

def bigSigma0 (x : Nat) : Nat := rotr32 2 x ^^^ rotr32 13 x ^^^ rotr32 22 x

def bigSigma1 (x : Nat) : Nat := rotr32 6 x ^^^ rotr32 11 x ^^^ rotr32 25 x

def smallSigma0 (x : Nat) : Nat := rotr32 7 x ^^^ rotr32 18 x ^^^ (x >>> 3)

def smallSigma1 (x : Nat) : Nat := rotr32 17 x ^^^ rotr32 19 x ^^^ (x >>> 10)

/-- The 64 SHA-256 round constants (FIPS 180-4 §4.2.2, written in decimal). -/
def shaK : List Nat :=
  [1116352408, 1899447441, 3049323471, 3921009573, 961987163,
   1508970993, 2453635748, 2870763221, 3624381080, 310598401,
   607225278, 1426881987, 1925078388, 2162078206, 2614888103,
   3248222580, 3835390401, 4022224774, 264347078, 604807628,
   770255983, 1249150122, 1555081692, 1996064986, 2554220882,
   2821834349, 2952996808, 3210313671, 3336571891, 3584528711,
   113926993, 338241895, 666307205, 773529912, 1294757372,
   1396182291, 1695183700, 1986661051, 2177026350, 2456956037,
   2730485921, 2820302411, 3259730800, 3345764771, 3516065817,
   3600352804, 4094571909, 275423344, 430227734, 506948616,
   659060556, 883997877, 958139571, 1322822218, 1537002063,
   1747873779, 1955562222, 2024104815, 2227730452, 2361852424,
   2428436474, 2756734187, 3204031479, 3329325298]

/-- The intermediate hash value: eight 32-bit working variables. -/
structure Hash8 where
  v0 : Nat
  v1 : Nat
  v2 : Nat
  v3 : Nat
  v4 : Nat
  v5 : Nat
  v6 : Nat
  v7 : Nat
deriving DecidableEq

def shaInit : Hash8 :=
  ⟨1779033703, 3144134277, 1013904242, 2773480762,
   1359893119, 2600822924, 528734635, 1541459225⟩

/-- One compression round: `kw` is the pair of round constant and schedule word. -/
def shaRound (st : Hash8) (kw : Nat × Nat) : Hash8 :=
  let t1 := w32 (st.v7 + bigSigma1 st.v4 + ch32 st.v4 st.v5 st.v6 + kw.1 + kw.2)
  let t2 := w32 (bigSigma0 st.v0 + maj32 st.v0 st.v1 st.v2)
  ⟨w32 (t1 + t2), st.v0, st.v1, st.v2, w32 (st.v3 + t1), st.v4, st.v5, st.v6⟩

/-- Big-endian packing of bytes into 32-bit words. -/
def bytesToWords : List Nat → List Nat
  | b0 :: b1 :: b2 :: b3 :: rest =>
      ((b0 <<< 24) ||| (b1 <<< 16) ||| (b2 <<< 8) ||| b3) :: bytesToWords rest
  | _ => []

/-- Append the next message-schedule word to a schedule of length ≥ 16. -/
def scheduleStep (ws : List Nat) : List Nat :=
  let n := ws.length
  ws ++ [w32 (smallSigma1 (ws.getD (n - 2) 0) + ws.getD (n - 7) 0 +
              smallSigma0 (ws.getD (n - 15) 0) + ws.getD (n - 16) 0)]

/-- Expand the 16 block words to the 64-word message schedule. -/
def schedule (ws : List Nat) : List Nat :=
  (List.range 48).foldl (fun acc _ => scheduleStep acc) ws

/-- Compress one 64-byte block into the running hash value. -/
def compressBlock (H : Hash8) (block : List Nat) : Hash8 :=
  let ws := schedule (bytesToWords block)
  let st := (shaK.zip ws).foldl shaRound H
  ⟨w32 (H.v0 + st.v0), w32 (H.v1 + st.v1), w32 (H.v2 + st.v2), w32 (H.v3 + st.v3),
   w32 (H.v4 + st.v4), w32 (H.v5 + st.v5), w32 (H.v6 + st.v6), w32 (H.v7 + st.v7)⟩

/-- SHA-256 padding: 0x80, zeros to 56 mod 64, then the 64-bit big-endian bit length. -/
def padMessage (msg : List Nat) : List Nat :=
  let len := msg.length
  let bitLen := len * 8
  let k := (119 - len % 64) % 64
  msg ++ [0x80] ++ List.replicate k 0 ++
    [(bitLen >>> 56) % 256, (bitLen >>> 48) % 256, (bitLen >>> 40) % 256,
     (bitLen >>> 32) % 256, (bitLen >>> 24) % 256, (bitLen >>> 16) % 256,
     (bitLen >>> 8) % 256, bitLen % 256]

/-- Split a byte string into 64-byte blocks (fuel bounds the recursion so the
definition stays structurally recursive and kernel-reducible). -/
def chunks64Aux : Nat → List Nat → List (List Nat)
  | 0, _ => []
  | _ + 1, [] => []
  | fuel + 1, l => l.take 64 :: chunks64Aux fuel (l.drop 64)

/-- Split a byte string into 64-byte blocks. -/
def chunks64 (l : List Nat) : List (List Nat) :=
  chunks64Aux l.length l

/-- Big-endian bytes of a 32-bit word. -/
def word32Bytes (w : Nat) : List Nat :=
  [(w >>> 24) % 256, (w >>> 16) % 256, (w >>> 8) % 256, w % 256]

/-- The 32 digest bytes of a final hash value. -/
def hashBytes (H : Hash8) : List Nat :=
  word32Bytes H.v0 ++ word32Bytes H.v1 ++ word32Bytes H.v2 ++ word32Bytes H.v3 ++
  word32Bytes H.v4 ++ word32Bytes H.v5 ++ word32Bytes H.v6 ++ word32Bytes H.v7

/-- SHA-256 of a byte string (`hashlib.sha256(...).digest()`), as 32 bytes. -/
def sha256 (msg : List Nat) : List Nat :=
  hashBytes ((chunks64 (padMessage msg)).foldl compressBlock shaInit)

-- ─── UTF-8 encoding (Python `str.encode()`) ───

/-- UTF-8 bytes of one Unicode code point. -/
def utf8Char (c : Char) : List Nat :=
  let n := c.toNat
  if n < 0x80 then [n]
  else if n < 0x800 then
    [0xC0 ||| (n >>> 6), 0x80 ||| (n &&& 0x3F)]
  else if n < 0x10000 then
    [0xE0 ||| (n >>> 12), 0x80 ||| ((n >>> 6) &&& 0x3F), 0x80 ||| (n &&& 0x3F)]
  else
    [0xF0 ||| (n >>> 18), 0x80 ||| ((n >>> 12) &&& 0x3F),
     0x80 ||| ((n >>> 6) &&& 0x3F), 0x80 ||| (n &&& 0x3F)]

/-- UTF-8 bytes of a string (Python `s.encode()`). -/
def utf8Encode (s : String) : List Nat :=
  s.data.flatMap utf8Char

-- ─── Medium node state (`MediumNode.__init__`) ───

/-- The mutable state of a `MediumNode`: the mempool buffer, the counters, and
the liveness flags shared between the background loops. -/
structure MediumState where
  node_id : String
  mempool : List Dict
  tx_count : Nat
  batches_submitted : Nat
  heavy_online : Bool
  shadow_mode : Bool
  last_heavy_heartbeat : Rat
deriving DecidableEq

/-- `MediumNode.__init__`: empty buffer, zero counters, offline flags. -/
def MediumState.init (node_id : String) : MediumState :=
  ⟨node_id, [], 0, 0, false, false, 0⟩

-- ─── `MediumNode.submit_tx` (transaction acceptance) ───

/-- The HTTP response of `submit_tx` on a parsed JSON body. -/
inductive SubmitResponse where
  | accepted (tx_id : String)
  | badRequest (msg : String)
deriving DecidableEq

/-- The `required` list of `submit_tx`. -/
def requiredFields : List String := ["sender", "recipient", "amount"]

/-- `MediumNode.submit_tx` on an already-parsed JSON object `tx`: reject with
400 on the first absent required field; otherwise assign `id` (the fresh
`uuid4` string) and `received_at` (the current time), append to the mempool
tail and bump `tx_count`. -/
def submit_tx (st : MediumState) (freshId : String) (now : Rat) (tx : Dict) :
    MediumState × SubmitResponse :=
  match requiredFields.find? (fun f => !dictHas f tx) with
  | some f => (st, .badRequest ("Missing required field: " ++ f))
  | none =>
      let tx1 := dictSet "id" (.vStr freshId) tx
      let tx2 := dictSet "received_at" (.vNum now) tx1
      ({ st with mempool := st.mempool ++ [tx2], tx_count := st.tx_count + 1 },
       .accepted freshId)

-- ─── `MediumNode.monitor_heavy_nodes` (liveness monitor) ───

/-- The outcome of one health probe: an HTTP response with its status and the
time at which it arrived, or a transport failure (exception). -/
inductive ProbeOutcome where
  | response (status : Nat) (now : Rat)
  | failure
deriving DecidableEq

/-- The warning logged on the `Online → Shadow` transition. -/
def shadowEnterMsg : String := "Heavy node unreachable - entering shadow mode"

/-- The log line on the `Shadow → Online` recovery transition. -/
def recoveryMsg : String := "Heavy node back online, exiting shadow mode"

/-- `MediumNode._handle_heavy_offline`: warn only when previously online, then
clear `heavy_online` and set `shadow_mode` unconditionally. -/
def handle_heavy_offline (st : MediumState) : MediumState × List String :=
  ({ st with heavy_online := false, shadow_mode := true },
   if st.heavy_online then [shadowEnterMsg] else [])

/-- One cycle of `monitor_heavy_nodes`, given the probe's outcome: HTTP 200
sets `heavy_online`, records the heartbeat time and logs the recovery exactly
when `shadow_mode` was set; any other status and any exception go through
`_handle_heavy_offline`. -/
def monitorStep (st : MediumState) (p : ProbeOutcome) : MediumState × List String :=
  match p with
  | .response status now =>
      if status = 200 then
        let st1 := { st with heavy_online := true, last_heavy_heartbeat := now }
        if st.shadow_mode then ({ st1 with shadow_mode := false }, [recoveryMsg])
        else (st1, [])
      else handle_heavy_offline st
  | .failure => handle_heavy_offline st

/-- Several consecutive monitor cycles, accumulating the log lines. -/
def monitorRun (st : MediumState) : List ProbeOutcome → MediumState × List String
  | [] => (st, [])
  | p :: ps =>
      let r1 := monitorStep st p
      let r2 := monitorRun r1.1 ps
      (r2.1, r1.2 ++ r2.2)

-- ─── `MediumNode._detect_public_addr` (address resolver) ───

/-- The environment the resolver probes: the `PUBLIC_ADDR` variable, the
per-service outcome of each what-is-my-IP query (`none` = exception,
`some (status, body)` = HTTP response), the outbound-socket local address and
the local-hostname resolution (`none` = exception in either). -/
structure AddrEnv where
  public_addr : Option String
  ip_services : List (Option (Nat × String))
  socket_addr : Option String
  hostname_addr : Option String
deriving DecidableEq

/-- Python `str.strip()` with no argument: drop ASCII whitespace from both
ends (defined structurally over the character list so that it evaluates in
the kernel). -/
def pyStrip (s : String) : String :=
  ⟨((s.data.dropWhile Char.isWhitespace).reverse.dropWhile Char.isWhitespace).reverse⟩

/-- The `for url in [...]` loop of `_detect_public_addr`: accept the first
HTTP-200 body whose stripped text is non-empty and shorter than 40
characters; every other outcome falls through to the next service. -/
def tryIpServices : List (Option (Nat × String)) → Option String
  | [] => none
  | none :: rest => tryIpServices rest
  | some (status, body) :: rest =>
      if status = 200 then
        let ip := pyStrip body
        if ip ≠ "" ∧ ip.length < 40 then some ip else tryIpServices rest
      else tryIpServices rest

/-- The tiers of `_detect_public_addr` below the environment variable:
IP services, then the outbound socket, then the hostname, then loopback. -/
def detectFallback (e : AddrEnv) : String :=
  match tryIpServices e.ip_services with
  | some ip => ip
  | none =>
      match e.socket_addr with
      | some a => a
      | none =>
          match e.hostname_addr with
          | some h => h
          | none => "127.0.0.1"

/-- `MediumNode._detect_public_addr`: `PUBLIC_ADDR` wins when set and
non-empty (Python truthiness), otherwise fall through the tiers. -/
def detect_public_addr (e : AddrEnv) : String :=
  match e.public_addr with
  | some s => if s ≠ "" then s else detectFallback e
  | none => detectFallback e

-- ─── `MediumNode.advertise_to_heavy` (capacity advertiser) ───

/-- The JSON payload POSTed to `/subchain/advertise`. -/
structure Advertisement where
  subchain_id : String
  aggregator_node_id : String
  aggregator_addr : String
  app_type : String
  capacity_percent : Int
  last_seen : String
  reputation_score : Rat
deriving DecidableEq

/-- One cycle of the `while True` loop of `advertise_to_heavy`: skip (no
payload built, no request sent) unless `heavy_online`; otherwise build the
advertisement from the current state and the address resolved at task start. -/
def advertise_cycle (st : MediumState) (public_ip : String) (api_port : Nat)
    (app_type : String) (last_seen : String) : Option Advertisement :=
  if !st.heavy_online then none
  else some
    { subchain_id := "subchain-" ++ st.node_id.take 8
      aggregator_node_id := st.node_id
      aggregator_addr := public_ip ++ ":" ++ toString api_port
      app_type := app_type
      capacity_percent := max 0 (100 - (st.mempool.length : Int))
      last_seen := last_seen
      reputation_score := 1 }

/-- `advertise_to_heavy` as a whole: the public address is resolved once,
before the loop, and every cycle advertises with that same address. -/
def advertise_run (e : AddrEnv) (api_port : Nat) (app_type : String)
    (cycles : List (MediumState × String)) : List (Option Advertisement) :=
  let public_ip := detect_public_addr e
  cycles.map (fun c => advertise_cycle c.1 public_ip api_port app_type c.2)

-- ─── `MediumNode.batch_flush` (batch anchoring loop) ───

/-- The slicing pair `mempool[:n], mempool[n:]` used by `batch_flush`. -/
def drain (n : Nat) (buf : List Dict) : List Dict × List Dict :=
  (buf.take n, buf.drop n)

/-- The failure path `self.mempool = batch + self.mempool` of `batch_flush`. -/
def requeue_front (chunk buf : List Dict) : List Dict :=
  chunk ++ buf

/-- `tx.get("id", str(i))` inside the digest computation.  `none` models the
`TypeError` Python's `str.join` would raise on a non-string id; it is never
reached for buffered records, whose ids are strings assigned by `submit_tx`. -/
def txIdOrIndex : Nat × Dict → Option String
  | (i, tx) =>
      match dictGet "id" tx with
      | none => some (toString i)
      | some (Val.vStr s) => some s
      | some _ => none

/-- `"".join(tx.get("id", str(i)) for i, tx in enumerate(batch))`. -/
def batchCombined (batch : List Dict) : Option String :=
  (batch.enum.mapM txIdOrIndex).map String.join

/-- The JSON payload POSTed to `/subchain/batch_anchor`
(`serialized_leaves_ref` is the constant `null` and is omitted). -/
structure AnchorRequest where
  batch_root : List Nat
  aggregator : String
  leaf_count : Nat
deriving DecidableEq

/-- The outcome of the anchor POST: an HTTP response with its status, or a
transport failure (exception). -/
inductive AnchorOutcome where
  | response (status : Nat)
  | failure
deriving DecidableEq

/-- One cycle of the `while True` loop of `batch_flush`, given the outcome the
anchor POST would have: skip untouched when the buffer is empty or the heavy
node is not online; otherwise drain up to 100 records, hash the concatenated
ids, and either count the batch (HTTP 200) or requeue the chunk at the front
(any other status, or an exception).  The outer `none` models the Python
`TypeError` of a non-string id escaping the loop body. -/
def batch_flush_cycle (st : MediumState) (res : AnchorOutcome) :
    Option (MediumState × Option AnchorRequest) :=
  if st.mempool.isEmpty || !st.heavy_online then some (st, none)
  else
    let batch := (drain 100 st.mempool).1
    let rest := (drain 100 st.mempool).2
    match batchCombined batch with
    | none => none
    | some combined =>
        let batch_root := sha256 (utf8Encode combined)
        let req : AnchorRequest := ⟨batch_root, st.node_id, batch.length⟩
        match res with
        | .response status =>
            if status = 200 then
              some
                ({ st with
                    mempool := rest
                    batches_submitted := st.batches_submitted + 1 }, some req)
            else
              some ({ st with mempool := requeue_front batch rest }, some req)
        | .failure =>
            some ({ st with mempool := requeue_front batch rest }, some req)

-- ─── `LightNode.discover_aggregator` (discovery selector) ───

/-- A discovered advertisement as the selector reads it: the two fields taken
by subscription (present in every Advertisement-shaped record) and the
reputation score read with `a.get("reputation_score", 0)`. -/
structure Candidate where
  aggregator_node_id : String
  aggregator_addr : String
  reputation_score : Option Rat
deriving DecidableEq

/-- `a.get("reputation_score", 0)`. -/
def candRep (c : Candidate) : Rat := c.reputation_score.getD 0

/-- Python `max(ads, key=lambda a: a.get("reputation_score", 0))`: fold from
the head, replacing the running best only on a strictly greater key, so the
first-listed candidate wins exact ties. -/
def maxByRep : List Candidate → Option Candidate
  | [] => none
  | c :: cs =>
      some (cs.foldl (fun best x => if candRep best < candRep x then x else best) c)

/-- The outcome of the discovery GET. -/
inductive DiscoverOutcome where
  | response (status : Nat) (ads : List Candidate)
  | failure
deriving DecidableEq

/-- One call of `LightNode.discover_aggregator`, returning the new value of
`self.aggregator_addr`: on HTTP 200 with a non-empty list, adopt the address
of the maximal-reputation candidate; on an empty list, a non-200 status or an
exception, keep the prior selection. -/
def discover_aggregator (aggregator_addr : String) (res : DiscoverOutcome) : String :=
  match res with
  | .response status ads =>
      if status = 200 then
        match maxByRep ads with
        | some best => best.aggregator_addr
        | none => aggregator_addr
      else aggregator_addr
  | .failure => aggregator_addr

/-- Modelled from the spec's words, for the refinement check of the selector:
pick the first candidate whose reputation no later candidate strictly
exceeds (\"maximum `reputation_score`, first-seen wins on exact ties\"). -/
def specSelect : List Candidate → Option Candidate
  | [] => none
  | c :: cs =>
      match specSelect cs with
      | none => some c
      | some b => if candRep c < candRep b then some b else some c

/-- FIPS 180-4 test vector: the digest of the empty message. -/
theorem sha256_empty_vector :
    sha256 [] =
      [0xe3, 0xb0, 0xc4, 0x42, 0x98, 0xfc, 0x1c, 0x14, 0x9a, 0xfb, 0xf4, 0xc8,
       0x99, 0x6f, 0xb9, 0x24, 0x27, 0xae, 0x41, 0xe4, 0x64, 0x9b, 0x93, 0x4c,
       0xa4, 0x95, 0x99, 0x1b, 0x78, 0x52, 0xb8, 0x55] := by
  decide

/-- FIPS 180-4 test vector: the digest of `"abc"`. -/
theorem sha256_abc_vector :
    sha256 (utf8Encode "abc") =
      [0xba, 0x78, 0x16, 0xbf, 0x8f, 0x01, 0xcf, 0xea, 0x41, 0x41, 0x40, 0xde,
       0x5d, 0xae, 0x22, 0x23, 0xb0, 0x03, 0x61, 0xa3, 0x96, 0x17, 0x7a, 0x9c,
       0xb4, 0x10, 0xff, 0x61, 0xf2, 0x00, 0x15, 0xad] := by
  decide

-- ─── Claim theorems ───

/-- C1: in every anchoring cycle whose anchor submission fails (non-200 status
or transport error), the drained chunk is reinserted at the front of the
buffer in its original order, the buffer's transaction multiset after the
cycle equals the multiset before it, and `batches_submitted` is unchanged. -/
theorem anchor_failure_preserves_buffer (st : MediumState) (res : AnchorOutcome)
    (hfail : res ≠ AnchorOutcome.response 200)
    (hsome : (batchCombined (drain 100 st.mempool).1).isSome = true) :
    ((batch_flush_cycle st res).map (fun p => p.1.mempool) =
      some (requeue_front (drain 100 st.mempool).1 (drain 100 st.mempool).2)) ∧
    ((batch_flush_cycle st res).map (fun p => p.1.mempool) = some st.mempool) ∧
    ((batch_flush_cycle st res).map (fun p => Multiset.ofList p.1.mempool) =
      some (Multiset.ofList st.mempool)) ∧
    ((batch_flush_cycle st res).map (fun p => p.1.batches_submitted) =
      some st.batches_submitted) := by
  have hts : requeue_front (drain 100 st.mempool).1 (drain 100 st.mempool).2 =
      st.mempool := by
    simp [requeue_front, drain]
  rcases Option.isSome_iff_exists.mp hsome with ⟨combined, hcb⟩
  by_cases hskip : (st.mempool.isEmpty || !st.heavy_online) = true
  · simp [batch_flush_cycle, hskip, hts]
  · rcases res with s | _
    · have hs : s ≠ 200 := by
        intro h
        exact hfail (by rw [h])
      simp [batch_flush_cycle, hskip, hcb, hs, hts]
    · simp [batch_flush_cycle, hskip, hcb, hts]

/-- C1 witness: a failed anchor (HTTP 500) over a 150-record buffer leaves
the buffer and the counter exactly as they were. -/
def exSt150 : MediumState :=
  { MediumState.init "node-1" with
      mempool := List.replicate 150 ([] : Dict)
      heavy_online := true }

theorem anchor_failure_preserves_buffer_witness :
    ((batch_flush_cycle exSt150 (AnchorOutcome.response 500)).map
        (fun p => p.1.mempool) =
      some (requeue_front (drain 100 exSt150.mempool).1
        (drain 100 exSt150.mempool).2)) ∧
    ((batch_flush_cycle exSt150 (AnchorOutcome.response 500)).map
        (fun p => p.1.mempool) = some exSt150.mempool) ∧
    ((batch_flush_cycle exSt150 (AnchorOutcome.response 500)).map
        (fun p => Multiset.ofList p.1.mempool) =
      some (Multiset.ofList exSt150.mempool)) ∧
    ((batch_flush_cycle exSt150 (AnchorOutcome.response 500)).map
        (fun p => p.1.batches_submitted) = some exSt150.batches_submitted) :=
  anchor_failure_preserves_buffer exSt150 (AnchorOutcome.response 500)
    (by decide) (by decide)

/-- C2: draining `n` keeps exactly `min n length` oldest records and leaves
`max 0 (length - n)`; requeueing the drained chunk in front of the remainder
restores the buffer exactly (order included); and over a 150-record online
buffer, one successful cycle drains exactly 100, leaves 50 and increments
`batches_submitted` by one. -/
theorem drain_requeue_invariant :
    (∀ (n : Nat) (buf : List Dict), ((drain n buf).1).length = min n buf.length)
  ∧ (∀ (n : Nat) (buf : List Dict),
      (((drain n buf).2).length : Int) = max 0 ((buf.length : Int) - (n : Int)))
  ∧ (∀ (n : Nat) (buf : List Dict),
      requeue_front (drain n buf).1 (drain n buf).2 = buf)
  ∧ (∀ st : MediumState, st.mempool.length = 150 → st.heavy_online = true →
      (batchCombined (drain 100 st.mempool).1).isSome = true →
      ((drain 100 st.mempool).1.length = 100 ∧
       (batch_flush_cycle st (AnchorOutcome.response 200)).map
         (fun p => (p.1.mempool.length, p.1.batches_submitted)) =
         some (50, st.batches_submitted + 1))) := by
  refine ⟨?_, ?_, ?_, ?_⟩
  · intro n buf
    simp [drain]
  · intro n buf
    simp [drain]
    omega
  · intro n buf
    simp [requeue_front, drain]
  · intro st h150 hon hsome
    rcases Option.isSome_iff_exists.mp hsome with ⟨combined, hcb⟩
    simp only [drain] at hcb
    have hne : st.mempool.isEmpty = false := by
      cases hm : st.mempool
      · rw [hm] at h150
        simp at h150
      · simp [hm]
    constructor
    · simp [drain, h150]
    · simp [batch_flush_cycle, hne, hon, hcb, drain, h150]

/-- C2 witness: the invariants at `n = 3` over a 5-record buffer, and the
150-record success scenario. -/
def exBuf5 : List Dict := List.replicate 5 ([("sender", Val.vNull)] : Dict)

theorem drain_requeue_invariant_witness :
    ((drain 3 exBuf5).1).length = min 3 exBuf5.length ∧
    (((drain 3 exBuf5).2).length : Int) = max 0 ((exBuf5.length : Int) - (3 : Int)) ∧
    requeue_front (drain 3 exBuf5).1 (drain 3 exBuf5).2 = exBuf5 ∧
    (drain 100 exSt150.mempool).1.length = 100 ∧
    (batch_flush_cycle exSt150 (AnchorOutcome.response 200)).map
      (fun p => (p.1.mempool.length, p.1.batches_submitted)) =
      some (50, exSt150.batches_submitted + 1) := by
  have h := drain_requeue_invariant
  have h4 := h.2.2.2 exSt150 (by decide) (by decide) (by decide)
  exact ⟨h.1 3 exBuf5, h.2.1 3 exBuf5, h.2.2.1 3 exBuf5, h4.1, h4.2⟩

/-- C6: while the heavy node is not online, one anchoring cycle and one
advertising cycle are skipped whole: the state is untouched and no request
payload is built; the anchoring loop also skips when the buffer is empty. -/
theorem offline_skips_cycles :
    (∀ (st : MediumState) (res : AnchorOutcome), st.heavy_online = false →
        batch_flush_cycle st res = some (st, none))
  ∧ (∀ (st : MediumState) (res : AnchorOutcome), st.mempool = [] →
        batch_flush_cycle st res = some (st, none))
  ∧ (∀ (st : MediumState) (ip : String) (port : Nat) (apt ls : String),
        st.heavy_online = false → advertise_cycle st ip port apt ls = none) := by
  refine ⟨?_, ?_, ?_⟩
  · intro st res h
    simp [batch_flush_cycle, h]
  · intro st res h
    simp [batch_flush_cycle, h]
  · intro st ip port apt ls h
    simp [advertise_cycle, h]

/-- C6 witness: an offline node with a non-empty buffer skips both cycles. -/
def exStOffline : MediumState :=
  { MediumState.init "node-1" with mempool := [[("sender", Val.vNull)]] }

theorem offline_skips_cycles_witness :
    batch_flush_cycle exStOffline (AnchorOutcome.response 200) =
      some (exStOffline, none) ∧
    batch_flush_cycle (MediumState.init "node-2") AnchorOutcome.failure =
      some (MediumState.init "node-2", none) ∧
    advertise_cycle exStOffline "1.2.3.4" 8001 "general" "t" = none :=
  ⟨offline_skips_cycles.1 exStOffline (AnchorOutcome.response 200) (by decide),
   offline_skips_cycles.2.1 (MediumState.init "node-2") AnchorOutcome.failure (by decide),
   offline_skips_cycles.2.2 exStOffline "1.2.3.4" 8001 "general" "t" (by decide)⟩

/-- C9: every advertisement the capacity advertiser builds carries
`capacity_percent = max 0 (100 - buffer_length)` computed from the buffer at
that cycle, hence a value between 0 and 100. -/
theorem capacity_percent_clamped (st : MediumState) (ip : String) (port : Nat)
    (apt ls : String) (ad : Advertisement)
    (h : advertise_cycle st ip port apt ls = some ad) :
    ad.capacity_percent = max 0 (100 - (st.mempool.length : Int)) ∧
    0 ≤ ad.capacity_percent ∧ ad.capacity_percent ≤ 100 := by
  rcases hon : st.heavy_online with _ | _
  · simp [advertise_cycle, hon] at h
  · simp [advertise_cycle, hon] at h
    refine ⟨by rw [← h], ?_, ?_⟩
    · rw [← h]
      exact le_max_left _ _
    · rw [← h]
      exact max_le (by norm_num) (by omega)

/-- C9 witness: with 30 buffered transactions the advertised capacity is 70. -/
def exSt30 : MediumState :=
  { MediumState.init "node-1" with
      mempool := List.replicate 30 ([] : Dict)
      heavy_online := true }

def exAd70 : Advertisement :=
  ⟨"subchain-node-1", "node-1", "1.2.3.4:8001", "general", 70, "t", 1⟩

theorem capacity_percent_clamped_witness :
    exAd70.capacity_percent = max 0 (100 - (exSt30.mempool.length : Int)) ∧
    0 ≤ exAd70.capacity_percent ∧ exAd70.capacity_percent ≤ 100 :=
  capacity_percent_clamped exSt30 "1.2.3.4" 8001 "general" "t" exAd70 (by decide)

-- ─── C3: batch digest ───

theorem word32Bytes_lt (w b : Nat) (h : b ∈ word32Bytes w) : b < 256 := by
  simp [word32Bytes] at h
  rcases h with h | h | h | h <;> subst h <;> exact Nat.mod_lt _ (by norm_num)

theorem sha256_length (msg : List Nat) : (sha256 msg).length = 32 := by
  simp [sha256, hashBytes, word32Bytes]

theorem sha256_mem_lt (msg : List Nat) (b : Nat) (h : b ∈ sha256 msg) : b < 256 := by
  simp only [sha256, hashBytes, List.mem_append] at h
  rcases h with ((((((h | h) | h) | h) | h) | h) | h) | h <;>
    exact word32Bytes_lt _ _ h

/-- C3: the batch root the anchoring loop submits is the raw SHA-256 digest of
the UTF-8 bytes of the concatenated transaction ids (the positional index as
a string standing in for an absent id), carried as 32 byte values each below
256, and the digest depends only on the ordered id sequence of the chunk. -/
theorem batch_root_sha256 (st : MediumState) (res : AnchorOutcome)
    (combined : String) (hon : st.heavy_online = true)
    (hne : st.mempool.isEmpty = false)
    (hcb : batchCombined (drain 100 st.mempool).1 = some combined) :
    ((batch_flush_cycle st res).map (fun p => p.2.map AnchorRequest.batch_root) =
      some (some (sha256 (utf8Encode combined)))) ∧
    (sha256 (utf8Encode combined)).length = 32 ∧
    (∀ b ∈ sha256 (utf8Encode combined), b < 256) ∧
    (∀ b1 b2 : List Dict, b1.enum.mapM txIdOrIndex = b2.enum.mapM txIdOrIndex →
      (batchCombined b1).map (fun s => sha256 (utf8Encode s)) =
        (batchCombined b2).map (fun s => sha256 (utf8Encode s))) := by
  refine ⟨?_, sha256_length _, fun b hb => sha256_mem_lt _ b hb, ?_⟩
  · simp only [drain] at hcb
    rcases res with s | _
    · by_cases hs : s = 200 <;>
        simp [batch_flush_cycle, hon, hne, hcb, drain, hs]
    · simp [batch_flush_cycle, hon, hne, hcb, drain]
  · intro b1 b2 h
    simp only [batchCombined]
    rw [h]

/-- C3 witness: a two-record chunk where the first record has id `"aa"` and
the second has no id, so the digest input is `"aa1"`. -/
def exStIds : MediumState :=
  { MediumState.init "node-1" with
      mempool := [[("id", Val.vStr "aa")], [("sender", Val.vNull)]]
      heavy_online := true }

theorem batch_root_sha256_witness :
    ((batch_flush_cycle exStIds (AnchorOutcome.response 200)).map
        (fun p => p.2.map AnchorRequest.batch_root) =
      some (some (sha256 (utf8Encode "aa1")))) ∧
    (sha256 (utf8Encode "aa1")).length = 32 ∧
    (∀ b ∈ sha256 (utf8Encode "aa1"), b < 256) ∧
    (∀ b1 b2 : List Dict, b1.enum.mapM txIdOrIndex = b2.enum.mapM txIdOrIndex →
      (batchCombined b1).map (fun s => sha256 (utf8Encode s)) =
        (batchCombined b2).map (fun s => sha256 (utf8Encode s))) :=
  batch_root_sha256 exStIds (AnchorOutcome.response 200) "aa1" (by decide)
    (by decide) (by decide)

-- ─── C4 / C10: transaction acceptance ───

/-- C4: acceptance fails with a 400 validation error exactly when one of
`sender`, `recipient`, `amount` is absent, and then the state is untouched;
on a record with all three it returns the fresh id (never the submitter's),
stores the record at the buffer tail with `id` and `received_at` assigned by
the node, and increments the accepted count by one. -/
theorem submit_tx_validation (st : MediumState) (freshId : String) (now : Rat)
    (tx : Dict) :
    ((∃ msg, (submit_tx st freshId now tx).2 = SubmitResponse.badRequest msg) ↔
      ¬(dictHas "sender" tx = true ∧ dictHas "recipient" tx = true ∧
        dictHas "amount" tx = true)) ∧
    ((∃ msg, (submit_tx st freshId now tx).2 = SubmitResponse.badRequest msg) →
      (submit_tx st freshId now tx).1 = st) ∧
    (dictHas "sender" tx = true → dictHas "recipient" tx = true →
      dictHas "amount" tx = true →
      ((submit_tx st freshId now tx).2 = SubmitResponse.accepted freshId ∧
       (submit_tx st freshId now tx).1.mempool =
         st.mempool ++
           [dictSet "received_at" (Val.vNum now)
             (dictSet "id" (Val.vStr freshId) tx)] ∧
       (submit_tx st freshId now tx).1.tx_count = st.tx_count + 1 ∧
       dictGet "id"
           (dictSet "received_at" (Val.vNum now)
             (dictSet "id" (Val.vStr freshId) tx)) = some (Val.vStr freshId) ∧
       dictGet "received_at"
           (dictSet "received_at" (Val.vNum now)
             (dictSet "id" (Val.vStr freshId) tx)) = some (Val.vNum now))) := by
  have hid : dictGet "id"
      (dictSet "received_at" (Val.vNum now) (dictSet "id" (Val.vStr freshId) tx)) =
      some (Val.vStr freshId) := by
    rw [dictGet_dictSet_ne _ _ _ _ (by decide), dictGet_dictSet_self]
  have hra : dictGet "received_at"
      (dictSet "received_at" (Val.vNum now) (dictSet "id" (Val.vStr freshId) tx)) =
      some (Val.vNum now) := dictGet_dictSet_self _ _ _
  cases hs : dictHas "sender" tx <;> cases hr : dictHas "recipient" tx <;>
    cases ha : dictHas "amount" tx <;>
      simp [submit_tx, requiredFields, List.find?, hs, hr, ha, hid, hra]

/-- C4 witness: a record missing `recipient` is rejected with the state
untouched; a complete record (with a submitter-supplied id that gets
overwritten) is accepted, appended, counted, and carries the assigned id. -/
def exTxBad : Dict := [("sender", Val.vStr "a"), ("amount", Val.vNum 5)]

def exTxFull : Dict :=
  [("sender", Val.vStr "a"), ("recipient", Val.vStr "b"),
   ("amount", Val.vNum 5), ("id", Val.vStr "attacker-chosen")]

theorem submit_tx_validation_witness :
    ((∃ msg, (submit_tx (MediumState.init "n") "fresh-1" 7 exTxBad).2 =
        SubmitResponse.badRequest msg) ↔
      ¬(dictHas "sender" exTxBad = true ∧ dictHas "recipient" exTxBad = true ∧
        dictHas "amount" exTxBad = true)) ∧
    (submit_tx (MediumState.init "n") "fresh-1" 7 exTxBad).1 =
      MediumState.init "n" ∧
    (submit_tx (MediumState.init "n") "fresh-1" 7 exTxFull).2 =
      SubmitResponse.accepted "fresh-1" ∧
    dictGet "id"
        (dictSet "received_at" (Val.vNum 7)
          (dictSet "id" (Val.vStr "fresh-1") exTxFull)) =
      some (Val.vStr "fresh-1") := by
  refine ⟨(submit_tx_validation (MediumState.init "n") "fresh-1" 7 exTxBad).1, ?_, ?_, ?_⟩
  · exact (submit_tx_validation (MediumState.init "n") "fresh-1" 7 exTxBad).2.1
      ⟨"Missing required field: recipient", by decide⟩
  · exact ((submit_tx_validation (MediumState.init "n") "fresh-1" 7 exTxFull).2.2
      (by decide) (by decide) (by decide)).1
  · exact ((submit_tx_validation (MediumState.init "n") "fresh-1" 7 exTxFull).2.2
      (by decide) (by decide) (by decide)).2.2.2.1

/-- C10: validation is presence-only — any parsed record with the three keys
is accepted whatever the values are — and every caller-supplied field other
than `id` and `received_at` is stored in the buffered record unchanged. -/
theorem accept_presence_only (st : MediumState) (freshId : String) (now : Rat)
    (tx : Dict) (hs : dictHas "sender" tx = true)
    (hr : dictHas "recipient" tx = true) (ha : dictHas "amount" tx = true) :
    (submit_tx st freshId now tx).2 = SubmitResponse.accepted freshId ∧
    (submit_tx st freshId now tx).1.mempool =
      st.mempool ++
        [dictSet "received_at" (Val.vNum now) (dictSet "id" (Val.vStr freshId) tx)] ∧
    (∀ k : String, k ≠ "id" → k ≠ "received_at" →
      dictGet k
          (dictSet "received_at" (Val.vNum now)
            (dictSet "id" (Val.vStr freshId) tx)) = dictGet k tx) := by
  refine ⟨?_, ?_, ?_⟩
  · simp [submit_tx, requiredFields, List.find?, hs, hr, ha]
  · simp [submit_tx, requiredFields, List.find?, hs, hr, ha]
  · intro k hkid hkra
    rw [dictGet_dictSet_ne _ _ _ _ hkra, dictGet_dictSet_ne _ _ _ _ hkid]

/-- C10 witness: a record whose `amount` is a negative fractional number,
whose `recipient` is null, and which carries an opaque extra field, is
accepted, and the extra field is stored unchanged. -/
def exTxWeird : Dict :=
  [("sender", Val.vStr "s"), ("recipient", Val.vNull),
   ("amount", Val.vNum (-7/2)), ("note", Val.vBool true)]

theorem accept_presence_only_witness :
    (submit_tx (MediumState.init "n") "fresh-2" 9 exTxWeird).2 =
      SubmitResponse.accepted "fresh-2" ∧
    dictGet "note"
        (dictSet "received_at" (Val.vNum 9)
          (dictSet "id" (Val.vStr "fresh-2") exTxWeird)) =
      dictGet "note" exTxWeird := by
  have h := accept_presence_only (MediumState.init "n") "fresh-2" 9 exTxWeird
    (by decide) (by decide) (by decide)
  exact ⟨h.1, h.2.2 "note" (by decide) (by decide)⟩

-- ─── C5: liveness monitor ───

theorem monitorStep_fail (st : MediumState) (p : ProbeOutcome)
    (h : ∀ now, p ≠ ProbeOutcome.response 200 now) :
    monitorStep st p =
      ({ st with heavy_online := false, shadow_mode := true },
       if st.heavy_online then [shadowEnterMsg] else []) := by
  rcases p with ⟨s, now⟩ | _
  · have hs : s ≠ 200 := fun hh => h now (by rw [hh])
    simp [monitorStep, hs, handle_heavy_offline]
  · simp [monitorStep, handle_heavy_offline]

theorem monitorRun_offline (st : MediumState) (ps : List ProbeOutcome)
    (hoff : st.heavy_online = false) (hsh : st.shadow_mode = true)
    (hfail : ∀ p ∈ ps, ∀ now, p ≠ ProbeOutcome.response 200 now) :
    monitorRun st ps = (st, []) := by
  obtain ⟨nid, mp, tc, bs, ho, sm, lh⟩ := st
  simp only at hoff hsh
  subst hoff
  subst hsh
  induction ps with
  | nil => rfl
  | cons p ps ih =>
    have hstep := monitorStep_fail ⟨nid, mp, tc, bs, false, true, lh⟩ p
      (hfail p (List.mem_cons_self p ps))
    simp only [monitorRun, hstep]
    simp [ih (fun q hq => hfail q (List.mem_cons_of_mem p hq))]

/-- C5: a 200 probe sets the state online, records the heartbeat and logs the
recovery exactly when the previous state was shadow; any failed probe sets
shadow unconditionally and logs the entry only when previously online; and
any non-empty run of consecutive failed probes from the online state logs the
transition exactly once. -/
theorem liveness_two_state :
    (∀ (st : MediumState) (now : Rat),
        (monitorStep st (ProbeOutcome.response 200 now)).1.heavy_online = true ∧
        (monitorStep st (ProbeOutcome.response 200 now)).1.shadow_mode = false ∧
        (monitorStep st (ProbeOutcome.response 200 now)).1.last_heavy_heartbeat = now ∧
        (monitorStep st (ProbeOutcome.response 200 now)).2 =
          (if st.shadow_mode then [recoveryMsg] else []))
  ∧ (∀ (st : MediumState) (p : ProbeOutcome),
        (∀ now, p ≠ ProbeOutcome.response 200 now) →
        ((monitorStep st p).1.heavy_online = false ∧
         (monitorStep st p).1.shadow_mode = true ∧
         (monitorStep st p).2 = (if st.heavy_online then [shadowEnterMsg] else [])))
  ∧ (∀ (st : MediumState) (ps : List ProbeOutcome),
        st.heavy_online = true → ps ≠ [] →
        (∀ p ∈ ps, ∀ now, p ≠ ProbeOutcome.response 200 now) →
        ((monitorRun st ps).2.count shadowEnterMsg = 1 ∧
         (monitorRun st ps).1.heavy_online = false ∧
         (monitorRun st ps).1.shadow_mode = true)) := by
  refine ⟨?_, ?_, ?_⟩
  · intro st now
    by_cases hsm : st.shadow_mode <;> simp [monitorStep, hsm]
  · intro st p h
    simp [monitorStep_fail st p h]
  · intro st ps hon hne hfail
    rcases ps with _ | ⟨p, ps⟩
    · exact absurd rfl hne
    · have hstep := monitorStep_fail st p (hfail p (List.mem_cons_self p ps))
      have hrest := monitorRun_offline
        { st with heavy_online := false, shadow_mode := true } ps rfl rfl
        (fun q hq => hfail q (List.mem_cons_of_mem p hq))
      simp [monitorRun, hstep, hrest, hon, List.count_cons]

/-- C5 witness: from the online state, three consecutive timed-out probes log
the shadow transition once and leave the node in shadow mode; a following 200
probe logs the recovery. -/
def exStOnline : MediumState :=
  { MediumState.init "node-1" with heavy_online := true }

theorem liveness_two_state_witness :
    ((monitorStep exStOnline (ProbeOutcome.response 200 3)).1.heavy_online = true ∧
     (monitorStep exStOnline (ProbeOutcome.response 200 3)).1.last_heavy_heartbeat = 3) ∧
    (monitorStep exStOnline ProbeOutcome.failure).1.shadow_mode = true ∧
    ((monitorRun exStOnline
        [ProbeOutcome.failure, ProbeOutcome.failure, ProbeOutcome.failure]).2.count
          shadowEnterMsg = 1 ∧
     (monitorRun exStOnline
        [ProbeOutcome.failure, ProbeOutcome.failure, ProbeOutcome.failure]).1.shadow_mode
          = true) := by
  have h1 := liveness_two_state.1 exStOnline 3
  have h2 := liveness_two_state.2.1 exStOnline ProbeOutcome.failure
    (fun now h => ProbeOutcome.noConfusion h)
  have h3 := liveness_two_state.2.2 exStOnline
    [ProbeOutcome.failure, ProbeOutcome.failure, ProbeOutcome.failure]
    (by decide) (by decide)
    (by
      intro p hp now
      have hpf : p = ProbeOutcome.failure := by simpa using hp
      rw [hpf]
      exact fun h => ProbeOutcome.noConfusion h)
  exact ⟨⟨h1.1, h1.2.2.1⟩, h2.2.1, h3.1, h3.2.2⟩

-- ─── C7: discovery selector ───

theorem specSelect_eq_none (l : List Candidate) :
    specSelect l = none ↔ l = [] := by
  cases l with
  | nil => simp [specSelect]
  | cons c cs =>
    cases hcs : specSelect cs
    · simp [specSelect, hcs]
    · simp only [specSelect, hcs]
      split <;> simp

theorem specSelect_head_le (c : Candidate) (cs : List Candidate) (b : Candidate)
    (h : specSelect (c :: cs) = some b) : candRep c ≤ candRep b := by
  cases hcs : specSelect cs with
  | none =>
    simp [specSelect, hcs] at h
    rw [← h]
  | some b' =>
    simp only [specSelect, hcs] at h
    by_cases hlt : candRep c < candRep b'
    · simp [hlt] at h
      rw [← h]
      exact le_of_lt hlt
    · simp [hlt] at h
      rw [← h]

theorem specSelect_cons (c : Candidate) (cs : List Candidate) :
    specSelect (c :: cs) =
      (match specSelect cs with
        | none => some c
        | some b => if candRep c < candRep b then some b else some c) := rfl

theorem specSelect_mem (l : List Candidate) :
    ∀ b : Candidate, specSelect l = some b → b ∈ l := by
  induction l with
  | nil => intro b h; simp [specSelect] at h
  | cons c cs ih =>
    intro b h
    cases hcs : specSelect cs with
    | none =>
      rw [specSelect_cons, hcs] at h
      simp at h
      simp [← h]
    | some b' =>
      rw [specSelect_cons, hcs] at h
      by_cases hlt : candRep c < candRep b'
      · simp [hlt] at h
        exact List.mem_cons_of_mem c (ih b (h ▸ hcs))
      · simp [hlt] at h
        simp [← h]

theorem specSelect_le (l : List Candidate) :
    ∀ b : Candidate, specSelect l = some b → ∀ x ∈ l, candRep x ≤ candRep b := by
  induction l with
  | nil => intro b h; simp [specSelect] at h
  | cons c cs ih =>
    intro b h x hx
    rcases List.mem_cons.mp hx with hx | hx
    · rw [hx]
      exact specSelect_head_le c cs b h
    · cases hcs : specSelect cs with
      | none =>
        rw [(specSelect_eq_none cs).mp hcs] at hx
        simp at hx
      | some b' =>
        have hxb' : candRep x ≤ candRep b' := ih b' hcs x hx
        rw [specSelect_cons, hcs] at h
        by_cases hlt : candRep c < candRep b'
        · simp [hlt] at h
          rw [← h]
          exact hxb'
        · simp [hlt] at h
          rw [← h]
          exact le_trans hxb' (not_lt.mp hlt)

theorem foldl_max_eq_spec (cs : List Candidate) (c : Candidate) :
    some (cs.foldl (fun best x => if candRep best < candRep x then x else best) c) =
      specSelect (c :: cs) := by
  induction cs generalizing c with
  | nil => rfl
  | cons x xs ih =>
    rw [List.foldl_cons, ih]
    cases hxs : specSelect xs with
    | none =>
      have hnil := (specSelect_eq_none xs).mp hxs
      subst hnil
      by_cases h1 : candRep c < candRep x <;>
        simp [specSelect_cons, specSelect, h1]
    | some b =>
      by_cases h2 : candRep x < candRep b
      · have hsx : specSelect (x :: xs) = some b := by
          rw [specSelect_cons, hxs]
          simp [h2]
        by_cases h1 : candRep c < candRep x
        · have h3 : candRep c < candRep b := lt_trans h1 h2
          simp [specSelect_cons, hxs, hsx, h1, h2, h3]
        · simp [specSelect_cons, hxs, hsx, h1]
      · have hsx : specSelect (x :: xs) = some x := by
          rw [specSelect_cons, hxs]
          simp [h2]
        by_cases h1 : candRep c < candRep x
        · simp [specSelect_cons, hxs, hsx, h1, h2]
        · have hbc : ¬ candRep c < candRep b :=
            not_lt.mpr (le_trans (not_lt.mp h2) (not_lt.mp h1))
          simp [specSelect_cons, hxs, hsx, h1, hbc]

theorem maxByRep_eq_specSelect (l : List Candidate) :
    maxByRep l = specSelect l := by
  cases l with
  | nil => rfl
  | cons c cs => simp [maxByRep, foldl_max_eq_spec]

/-- C7: Python's `max` over the candidate list refines the spec's selector
(maximum reputation, first-listed wins exact ties); the selected candidate is
a listed one of maximal reputation; a head candidate at least as reputable as
every later one is selected; a 200 response with a non-empty list replaces
the prior selection with the winner's address unconditionally; and an empty
list, a non-200 status or a transport failure leave the prior selection
unchanged. -/
theorem discovery_selects_max_reputation :
    (∀ ads : List Candidate, maxByRep ads = specSelect ads)
  ∧ (∀ (ads : List Candidate) (best : Candidate), maxByRep ads = some best →
        best ∈ ads ∧ ∀ c ∈ ads, candRep c ≤ candRep best)
  ∧ (∀ (c : Candidate) (cs : List Candidate),
        (∀ x ∈ cs, candRep x ≤ candRep c) → maxByRep (c :: cs) = some c)
  ∧ (∀ (prior : String) (ads : List Candidate) (best : Candidate),
        maxByRep ads = some best →
        discover_aggregator prior (DiscoverOutcome.response 200 ads) =
          best.aggregator_addr)
  ∧ (∀ prior : String,
        discover_aggregator prior (DiscoverOutcome.response 200 []) = prior)
  ∧ (∀ (prior : String) (status : Nat) (ads : List Candidate), status ≠ 200 →
        discover_aggregator prior (DiscoverOutcome.response status ads) = prior)
  ∧ (∀ prior : String, discover_aggregator prior DiscoverOutcome.failure = prior) := by
  refine ⟨maxByRep_eq_specSelect, ?_, ?_, ?_, ?_, ?_, ?_⟩
  · intro ads best h
    rw [maxByRep_eq_specSelect] at h
    exact ⟨specSelect_mem ads best h, specSelect_le ads best h⟩
  · intro c cs hle
    rw [maxByRep_eq_specSelect]
    cases hcs : specSelect cs with
    | none => simp [specSelect, hcs]
    | some b =>
      have hb : candRep b ≤ candRep c := hle b (specSelect_mem cs b hcs)
      simp [specSelect, hcs, not_lt.mpr hb]
  · intro prior ads best h
    simp [discover_aggregator, h]
  · intro prior
    simp [discover_aggregator, maxByRep]
  · intro prior status ads h
    simp [discover_aggregator, h]
  · intro prior
    simp [discover_aggregator]

/-- C7 witness: the spec scenario — reputations 0.5 and 0.9 select `B`; a
later 0.1-only response replaces the selection with `C`; an empty response
keeps it; and an exact tie goes to the first-listed candidate. -/
def candA : Candidate := ⟨"node-A", "A-addr", some (1/2)⟩

def candB : Candidate := ⟨"node-B", "B-addr", some (9/10)⟩

def candC : Candidate := ⟨"node-C", "C-addr", some (1/10)⟩

def candB2 : Candidate := ⟨"node-B2", "B2-addr", some (9/10)⟩

theorem discovery_selects_max_reputation_witness :
    discover_aggregator "" (DiscoverOutcome.response 200 [candA, candB]) =
      candB.aggregator_addr ∧
    discover_aggregator "B-addr" (DiscoverOutcome.response 200 [candC]) =
      candC.aggregator_addr ∧
    discover_aggregator "C-addr" (DiscoverOutcome.response 200 []) = "C-addr" ∧
    discover_aggregator "C-addr" DiscoverOutcome.failure = "C-addr" ∧
    maxByRep [candB, candB2] = some candB := by
  have h := discovery_selects_max_reputation
  have hAB : maxByRep [candA, candB] = some candB := by
    norm_num [maxByRep, candRep, candA, candB]
  have hC : maxByRep [candC] = some candC := by
    norm_num [maxByRep, candRep, candC]
  have hBB2 : ∀ x ∈ [candB2], candRep x ≤ candRep candB := by
    intro x hx
    have hx2 : x = candB2 := by simpa using hx
    rw [hx2]
    norm_num [candRep, candB, candB2]
  exact ⟨h.2.2.2.1 "" [candA, candB] candB hAB,
         h.2.2.2.1 "B-addr" [candC] candC hC,
         h.2.2.2.2.1 "C-addr",
         h.2.2.2.2.2.2 "C-addr",
         h.2.2.1 candB [candB2] hBB2⟩

-- ─── C8: address resolution ───

/-- C8: the resolver tries the tiers in strict priority order — configured
address, what-is-my-IP services (first 200 response whose stripped body is
non-empty and shorter than 40 characters), outbound-socket local address,
hostname resolution — takes the first success, and on total failure returns
the loopback address, so it returns an address string in every environment;
and the advertiser uses the once-resolved address in every cycle. -/
theorem addr_resolution_fallback :
    (∀ (e : AddrEnv) (s : String), e.public_addr = some s → s ≠ "" →
        detect_public_addr e = s)
  ∧ (∀ (e : AddrEnv) (ip : String),
        (e.public_addr = none ∨ e.public_addr = some "") →
        tryIpServices e.ip_services = some ip → detect_public_addr e = ip)
  ∧ (∀ (e : AddrEnv) (a : String),
        (e.public_addr = none ∨ e.public_addr = some "") →
        tryIpServices e.ip_services = none → e.socket_addr = some a →
        detect_public_addr e = a)
  ∧ (∀ (e : AddrEnv) (hn : String),
        (e.public_addr = none ∨ e.public_addr = some "") →
        tryIpServices e.ip_services = none → e.socket_addr = none →
        e.hostname_addr = some hn → detect_public_addr e = hn)
  ∧ (∀ e : AddrEnv,
        (e.public_addr = none ∨ e.public_addr = some "") →
        tryIpServices e.ip_services = none → e.socket_addr = none →
        e.hostname_addr = none → detect_public_addr e = "127.0.0.1")
  ∧ (∀ (status : Nat) (body : String) (rest : List (Option (Nat × String))),
        tryIpServices (some (status, body) :: rest) =
          if status = 200 ∧ pyStrip body ≠ "" ∧ (pyStrip body).length < 40
          then some (pyStrip body) else tryIpServices rest)
  ∧ (∀ rest : List (Option (Nat × String)),
        tryIpServices (none :: rest) = tryIpServices rest)
  ∧ (∀ (e : AddrEnv) (port : Nat) (apt : String)
        (cycles : List (MediumState × String)),
        ∀ o ∈ advertise_run e port apt cycles, ∀ ad : Advertisement, o = some ad →
          ad.aggregator_addr = detect_public_addr e ++ ":" ++ toString port) := by
  refine ⟨?_, ?_, ?_, ?_, ?_, ?_, ?_, ?_⟩
  · intro e s hp hs
    simp [detect_public_addr, hp, hs]
  · intro e ip hp hip
    rcases hp with hp | hp <;>
      simp [detect_public_addr, detectFallback, hp, hip]
  · intro e a hp hip hsock
    rcases hp with hp | hp <;>
      simp [detect_public_addr, detectFallback, hp, hip, hsock]
  · intro e hn hp hip hsock hh
    rcases hp with hp | hp <;>
      simp [detect_public_addr, detectFallback, hp, hip, hsock, hh]
  · intro e hp hip hsock hh
    rcases hp with hp | hp <;>
      simp [detect_public_addr, detectFallback, hp, hip, hsock, hh]
  · intro status body rest
    by_cases h2 : status = 200
    · by_cases h3 : pyStrip body ≠ "" ∧ (pyStrip body).length < 40
      · simp [tryIpServices, h2, h3]
      · simp [tryIpServices, h2, h3]
    · simp [tryIpServices, h2]
  · intro rest
    simp [tryIpServices]
  · intro e port apt cycles o ho ad had
    rcases List.mem_map.mp ho with ⟨c, hc, rfl⟩
    rcases hon : c.1.heavy_online with _ | _
    · simp [advertise_cycle, hon] at had
    · simp [advertise_cycle, hon] at had
      rw [← had]

/-- C8 witness: an environment whose first service answers 500, whose second
answers 200 with a padded body, resolves to the stripped body with no
configured address; with every tier failing it resolves to loopback; with a
configured address that wins outright. -/
def exEnvSvc : AddrEnv :=
  ⟨none, [some (500, "x"), some (200, " 5.6.7.8\n")], some "10.0.0.2", some "h"⟩

def exEnvEmpty : AddrEnv := ⟨some "", [none, some (404, "nope")], none, none⟩

def exEnvCfg : AddrEnv := ⟨some "203.0.113.9", [], none, none⟩

theorem addr_resolution_fallback_witness :
    detect_public_addr exEnvCfg = "203.0.113.9" ∧
    detect_public_addr exEnvSvc = "5.6.7.8" ∧
    detect_public_addr exEnvEmpty = "127.0.0.1" ∧
    tryIpServices [some (200, " 5.6.7.8\n")] =
      (if (200 : Nat) = 200 ∧ pyStrip " 5.6.7.8\n" ≠ "" ∧
          (pyStrip " 5.6.7.8\n").length < 40
       then some (pyStrip " 5.6.7.8\n") else tryIpServices []) := by
  have h := addr_resolution_fallback
  exact ⟨h.1 exEnvCfg "203.0.113.9" (by decide) (by decide),
         h.2.1 exEnvSvc "5.6.7.8" (Or.inl (by decide)) (by decide),
         h.2.2.2.2.1 exEnvEmpty (Or.inr (by decide)) (by decide) (by decide) (by decide),
         h.2.2.2.2.2.1 200 " 5.6.7.8\n" []⟩

end Ouro
